import Mathlib

/-!
Shallow embedding of the recommendation-graph classifier and the visual /
force parameters of the `GraphVisualization` React component
(`fetchAndRenderGraph`), the core of this repository.

JavaScript numbers are modelled as `Rat`, JavaScript strings as `String`,
a possibly-`undefined` value as an `Option`, and a JS `Set` as the list of
the values added to it (only membership, `has`, is ever consumed from the
sets the code builds, so the list model is membership-faithful).
-/

namespace KG

/-- Node identifiers (opaque; only equality is used by the code). -/
abbrev NodeId := Nat

/-- A node of the fetched `GraphData`, together with the mutable `type`
slot that the classification pass assigns (`none` models the property
being absent, as on freshly fetched data). -/
structure NodeData where
  id : NodeId
  name : String
  brand : String
  gender : String
  price : Rat
  color : String
  value : Rat
  recommendation_type : Option String
  type : Option String
  deriving DecidableEq, Repr

/-- A link endpoint as the JavaScript value stored in `link.source` /
`link.target`: either the raw id delivered in `GraphData` (`ofId`), or a
resolved node object reference (`ofNode`), which is what `d3.forceLink`
rewrites the field to when the force simulation initializes. -/
inductive LinkEnd where
  | ofId (i : NodeId)
  | ofNode (i : NodeId)
  deriving DecidableEq, Repr

/-- The JavaScript property access `e.id`: on a node object it yields the
id of the node; on a raw (primitive) id it yields `undefined` (`none`). -/
def LinkEnd.idField : LinkEnd → Option NodeId
  | .ofId _ => none
  | .ofNode i => some i

/-- The underlying id an endpoint refers to, whichever form it is in
(used only to state claims about resolvability, not by the code). -/
def LinkEnd.refId : LinkEnd → NodeId
  | .ofId i => i
  | .ofNode i => i

/-- A link of the fetched `GraphData`. -/
structure Link where
  source : LinkEnd
  target : LinkEnd
  similarity_score : Rat
  deriving DecidableEq, Repr

/-- The fetched `GraphData` shape. -/
structure GraphData where
  nodes : List NodeData
  links : List Link
  deriving DecidableEq, Repr

/-- JavaScript `set.has x` for a set of ids, where the argument may be
`undefined` (`none`): a set built from ids never contains `undefined`,
so `has undefined` is false. -/
def setHas (s : List NodeId) : Option NodeId → Prop
  | some i => i ∈ s
  | none => False

instance (s : List NodeId) (x : Option NodeId) : Decidable (setHas s x) :=
  match x with
  | some i => inferInstanceAs (Decidable (i ∈ s))
  | none => isFalse id

/-- Replace the `type` slot of a node, keeping every other field (the JS
assignment `node.type = ...`). -/
def setTypeField (n : NodeData) (t : Option String) : NodeData :=
  ⟨n.id, n.name, n.brand, n.gender, n.price, n.color, n.value,
    n.recommendation_type, t⟩

/-- Lines 99-103: the `pagerankSet`, built as
`new Set(data.nodes.filter(n => n.type === "pagerank" ||
n.recommendation_type === "pagerank").map(n => n.id))`. -/
def mkPagerankSet (nodes : List NodeData) : List NodeId :=
  (nodes.filter fun n =>
      decide (n.type = some "pagerank" ∨ n.recommendation_type = some "pagerank")).map
    (fun n => n.id)

/-- The elements the four conditional `connectedSet.add` calls of lines
113-124 contribute for one link: if `recommendedSet.has(link.source.id)`
add `link.target.id`, if `recommendedSet.has(link.target.id)` add
`link.source.id`, then the same two tests against `pagerankSet`. -/
def linkAdds (recommendedSet pagerankSet : List NodeId) (l : Link) :
    List (Option NodeId) :=
  (if setHas recommendedSet l.source.idField then [l.target.idField] else []) ++
  (if setHas recommendedSet l.target.idField then [l.source.idField] else []) ++
  (if setHas pagerankSet l.source.idField then [l.target.idField] else []) ++
  (if setHas pagerankSet l.target.idField then [l.source.idField] else [])

/-- Lines 110-125: the `connectedSet`, accumulated over
`data.links.forEach`. -/
def mkConnectedSet (recommendedSet pagerankSet : List NodeId)
    (links : List Link) : List (Option NodeId) :=
  links.foldl (fun acc l => acc ++ linkAdds recommendedSet pagerankSet l) []

/-- The role string the if/else chain of lines 135-145 assigns to one
node: `recommended` if `recommendedSet.has(node.id)`, else `pagerank` if
`pagerankSet.has(node.id) || node.recommendation_type === "pagerank"`,
else `connected` if `connectedSet.has(node.id)`, else `other`. -/
def roleOf (recommendedSet pagerankSet : List NodeId)
    (connectedSet : List (Option NodeId)) (n : NodeData) : String :=
  if n.id ∈ recommendedSet then "recommended"
  else if n.id ∈ pagerankSet ∨ n.recommendation_type = some "pagerank" then "pagerank"
  else if some n.id ∈ connectedSet then "connected"
  else "other"

/-- The effect of the loop body of lines 133-147 on one node: only the
`type` slot is written. -/
def assignType (recommendedSet pagerankSet : List NodeId)
    (connectedSet : List (Option NodeId)) (n : NodeData) : NodeData :=
  setTypeField n (some (roleOf recommendedSet pagerankSet connectedSet n))

/-- Lines 98-147: the whole classification pass of `fetchAndRenderGraph`
(the membership sets are built first, then one pass over the nodes). -/
def classify (recommendedIds : List NodeId) (nodes : List NodeData)
    (links : List Link) : List NodeData :=
  let recommendedSet := recommendedIds
  let pagerankSet := mkPagerankSet nodes
  let connectedSet := mkConnectedSet recommendedSet pagerankSet links
  nodes.map (assignType recommendedSet pagerankSet connectedSet)

/-- The classification pass acting on the whole fetched `GraphData`: the
node objects get their `type` slot written, the links are untouched. -/
def classifyGraph (recommendedIds : List NodeId) (data : GraphData) :
    GraphData :=
  ⟨classify recommendedIds data.nodes data.links, data.links⟩

/-- Lines 172-178: the rendered circle radius,
`baseSize = Math.max(8, d.value * 20)` scaled by the `type`-dependent
multiplier. -/
def renderedRadius (n : NodeData) : Rat :=
  let baseSize := max 8 (n.value * 20)
  if n.type = some "recommended" then baseSize * 1.1
  else if n.type = some "pagerank" then baseSize * 1.1
  else if n.type = some "connected" then baseSize * 1.05
  else baseSize

/-- Line 154: `d3.forceCollide().radius(20)` — the collision force uses
the constant radius 20 for every node. -/
def collisionRadius (_n : NodeData) : Rat := 20

/-- Line 151: `d3.forceLink(data.links)` — the link list handed to the
link force of the simulation, verbatim and unfiltered. -/
def forceLinkInput (data : GraphData) : List Link := data.links

/-- Line 84: `.scaleExtent([0.1, 4])`, the scale extent configured on the
zoom behavior. -/
def scaleExtent : Rat × Rat := (0.1, 4)

/-- Modelled from the spec: the zoom behavior clamps any requested scale
to the configured scale extent ("pan/zoom over a bounded scale range
(0.1x-4x)"); the d3-zoom code applying the clamp is a library external to
this repository. -/
def clampScale (extent : Rat × Rat) (k : Rat) : Rat :=
  max extent.1 (min extent.2 k)

/-- Whether a link endpoint resolves to a node of the collection
(spec-side predicate, used only to state claims). -/
def endpointResolves (nodes : List NodeData) (e : LinkEnd) : Prop :=
  ∃ n ∈ nodes, n.id = e.refId

instance (nodes : List NodeData) (e : LinkEnd) :
    Decidable (endpointResolves nodes e) :=
  inferInstanceAs (Decidable (∃ n ∈ nodes, n.id = e.refId))

/-- Erase the `type` slot, keeping all other fields (used to state that
classification changes nothing but `type`). -/
def stripType (n : NodeData) : NodeData := setTypeField n none

/-- The pagerank membership set computed from `recommendation_type`
alone: the simpler test that the `n.type === "pagerank"` disjunct is
claimed to be redundant over, on freshly fetched nodes. -/
def pagerankSetOfRecommendationType (nodes : List NodeData) : List NodeId :=
  (nodes.filter fun n => decide (n.recommendation_type = some "pagerank")).map
    (fun n => n.id)

/-- Scenario A / B node 1: id 1, `recommendation_type` equal to
`pagerank`, no `type` property. -/
def scenarioANode1 : NodeData := ⟨1, "", "", "", 0, "", 1, some "pagerank", none⟩

/-- Scenario A / B node 2: id 2, no tags. -/
def scenarioANode2 : NodeData := ⟨2, "", "", "", 0, "", 1, none, none⟩

/-- Scenario A / B edge between nodes 1 and 2, in the fetched `GraphData`
shape (source and target are raw ids). -/
def scenarioALink : Link := ⟨.ofId 1, .ofId 2, 1⟩

/-- Scenario A / B node list. -/
def scenarioANodes : List NodeData := [scenarioANode1, scenarioANode2]

/-- Scenario A / B link list. -/
def scenarioALinks : List Link := [scenarioALink]

/-- A link in `GraphData` shape whose target id 99 matches no node of
`scenarioANodes`. -/
def danglingLink : Link := ⟨.ofId 1, .ofId 99, 1⟩

/-- A graph whose second link references the unknown node id 99. -/
def danglingGraph : GraphData := ⟨scenarioANodes, [scenarioALink, danglingLink]⟩

/-- A node classified `recommended` with centrality value 1: its rendered
radius is `max 8 20 * 1.1 = 22`. -/
def bigRecommendedNode : NodeData := ⟨3, "", "", "", 0, "", 1, none, some "recommended"⟩

/-!  ## Basic lemmas about the embedding  -/

lemma setTypeField_id (n : NodeData) (t : Option String) :
    (setTypeField n t).id = n.id := rfl

lemma setTypeField_rec (n : NodeData) (t : Option String) :
    (setTypeField n t).recommendation_type = n.recommendation_type := rfl

lemma setTypeField_type (n : NodeData) (t : Option String) :
    (setTypeField n t).type = t := rfl

lemma setTypeField_setTypeField (n : NodeData) (t u : Option String) :
    setTypeField (setTypeField n t) u = setTypeField n u := rfl

lemma mem_mkPagerankSet {nodes : List NodeData} {i : NodeId} :
    i ∈ mkPagerankSet nodes ↔
      ∃ n ∈ nodes, n.id = i ∧
        (n.type = some "pagerank" ∨ n.recommendation_type = some "pagerank") := by
  simp [mkPagerankSet, List.mem_map, List.mem_filter]
  constructor
  · rintro ⟨n, ⟨hn, hp⟩, hi⟩
    exact ⟨n, hn, hi, hp⟩
  · rintro ⟨n, hn, hi, hp⟩
    exact ⟨n, ⟨hn, hp⟩, hi⟩

lemma mem_linkAdds {r p : List NodeId} {l : Link} {x : Option NodeId} :
    x ∈ linkAdds r p l ↔
      ((setHas r l.source.idField ∨ setHas p l.source.idField) ∧ x = l.target.idField) ∨
      ((setHas r l.target.idField ∨ setHas p l.target.idField) ∧ x = l.source.idField) := by
  simp only [linkAdds, List.mem_append]
  split_ifs <;> simp_all <;> tauto

lemma mem_foldl_linkAdds (r p : List NodeId) (ls : List Link)
    (acc : List (Option NodeId)) (x : Option NodeId) :
    x ∈ ls.foldl (fun a l => a ++ linkAdds r p l) acc ↔
      x ∈ acc ∨ ∃ l ∈ ls, x ∈ linkAdds r p l := by
  induction ls generalizing acc with
  | nil => simp
  | cons l ls ih =>
    simp only [List.foldl_cons, ih, List.mem_append, List.mem_cons]
    constructor
    · rintro (( h | h ) | ⟨l', hl', hx⟩)
      · exact Or.inl h
      · exact Or.inr ⟨l, Or.inl rfl, h⟩
      · exact Or.inr ⟨l', Or.inr hl', hx⟩
    · rintro (h | ⟨l', (rfl | hl'), hx⟩)
      · exact Or.inl (Or.inl h)
      · exact Or.inl (Or.inr hx)
      · exact Or.inr ⟨l', hl', hx⟩

lemma mem_mkConnectedSet {r p : List NodeId} {ls : List Link} {x : Option NodeId} :
    x ∈ mkConnectedSet r p ls ↔ ∃ l ∈ ls, x ∈ linkAdds r p l := by
  rw [mkConnectedSet, mem_foldl_linkAdds]
  simp

lemma mem_mkConnectedSet_congr {r p q : List NodeId} {ls : List Link}
    (h : ∀ i, i ∈ r ∨ i ∈ p ↔ i ∈ r ∨ i ∈ q) (x : Option NodeId) :
    x ∈ mkConnectedSet r p ls ↔ x ∈ mkConnectedSet r q ls := by
  have hs : ∀ e : Option NodeId, (setHas r e ∨ setHas p e) ↔ (setHas r e ∨ setHas q e) := by
    intro e
    cases e with
    | none => simp [setHas]
    | some i => simpa [setHas] using h i
  have hla : ∀ l : Link, x ∈ linkAdds r p l ↔ x ∈ linkAdds r q l := by
    intro l
    rw [mem_linkAdds, mem_linkAdds, hs, hs]
  rw [mem_mkConnectedSet, mem_mkConnectedSet]
  exact ⟨fun ⟨l, hl, hx⟩ => ⟨l, hl, (hla l).mp hx⟩,
    fun ⟨l, hl, hx⟩ => ⟨l, hl, (hla l).mpr hx⟩⟩

lemma classify_eq_map (r : List NodeId) (ns : List NodeData) (ls : List Link) :
    classify r ns ls =
      ns.map (assignType r (mkPagerankSet ns)
        (mkConnectedSet r (mkPagerankSet ns) ls)) := rfl

lemma roleOf_setTypeField (r p : List NodeId) (c : List (Option NodeId))
    (n : NodeData) (t : Option String) :
    roleOf r p c (setTypeField n t) = roleOf r p c n := by
  simp only [roleOf, setTypeField_id, setTypeField_rec]

lemma roleOf_eq_pagerank {r p : List NodeId} {c : List (Option NodeId)}
    {n : NodeData} (h : roleOf r p c n = "pagerank") :
    n.id ∉ r ∧ (n.id ∈ p ∨ n.recommendation_type = some "pagerank") := by
  by_cases h1 : n.id ∈ r
  · have hx : roleOf r p c n = "recommended" := by simp [roleOf, h1]
    exact absurd (hx.symm.trans h) (by decide)
  · by_cases h2 : n.id ∈ p ∨ n.recommendation_type = some "pagerank"
    · exact ⟨h1, h2⟩
    · by_cases h3 : some n.id ∈ c
      · have hx : roleOf r p c n = "connected" := by simp [roleOf, h1, h2, h3]
        exact absurd (hx.symm.trans h) (by decide)
      · have hx : roleOf r p c n = "other" := by simp [roleOf, h1, h2, h3]
        exact absurd (hx.symm.trans h) (by decide)

lemma mem_pagerankSet_classify {r : List NodeId} {ns : List NodeData}
    {ls : List Link} {i : NodeId} :
    i ∈ mkPagerankSet (classify r ns ls) ↔
      ∃ n ∈ ns, n.id = i ∧
        (roleOf r (mkPagerankSet ns) (mkConnectedSet r (mkPagerankSet ns) ls) n
            = "pagerank"
          ∨ n.recommendation_type = some "pagerank") := by
  rw [mem_mkPagerankSet, classify_eq_map]
  simp only [List.mem_map]
  constructor
  · rintro ⟨m', ⟨m, hm, rfl⟩, hid, hty⟩
    refine ⟨m, hm, hid, ?_⟩
    simpa [assignType, setTypeField] using hty
  · rintro ⟨m, hm, hid, hty⟩
    refine ⟨assignType _ _ _ m, ⟨m, hm, rfl⟩, hid, ?_⟩
    simpa [assignType, setTypeField] using hty

lemma rec_or_pagerank_stable (r : List NodeId) (ns : List NodeData)
    (ls : List Link) (i : NodeId) :
    i ∈ r ∨ i ∈ mkPagerankSet (classify r ns ls) ↔
      i ∈ r ∨ i ∈ mkPagerankSet ns := by
  by_cases hir : i ∈ r
  · simp [hir]
  · simp only [hir, false_or]
    rw [mem_pagerankSet_classify]
    constructor
    · rintro ⟨n, hn, hid, hrole | hrec⟩
      · subst hid
        rcases (roleOf_eq_pagerank hrole).2 with hmem | hrec2
        · exact hmem
        · exact mem_mkPagerankSet.mpr ⟨n, hn, rfl, Or.inr hrec2⟩
      · exact mem_mkPagerankSet.mpr ⟨n, hn, hid, Or.inr hrec⟩
    · intro hip1
      rcases mem_mkPagerankSet.mp hip1 with ⟨n, hn, hid, _hty⟩
      subst hid
      refine ⟨n, hn, rfl, Or.inl ?_⟩
      simp [roleOf, hir, hip1]

lemma assignType_fixpoint (r : List NodeId) (ns : List NodeData)
    (ls : List Link) (n : NodeData) (hn : n ∈ ns) :
    assignType r (mkPagerankSet (classify r ns ls))
      (mkConnectedSet r (mkPagerankSet (classify r ns ls)) ls)
      (assignType r (mkPagerankSet ns)
        (mkConnectedSet r (mkPagerankSet ns) ls) n)
      = assignType r (mkPagerankSet ns)
          (mkConnectedSet r (mkPagerankSet ns) ls) n := by
  have hA : ∀ i, i ∈ r ∨ i ∈ mkPagerankSet (classify r ns ls) ↔
      i ∈ r ∨ i ∈ mkPagerankSet ns := rec_or_pagerank_stable r ns ls
  have hcc : ∀ x, x ∈ mkConnectedSet r (mkPagerankSet (classify r ns ls)) ls ↔
      x ∈ mkConnectedSet r (mkPagerankSet ns) ls :=
    fun x => mem_mkConnectedSet_congr hA x
  have key : roleOf r (mkPagerankSet (classify r ns ls))
      (mkConnectedSet r (mkPagerankSet (classify r ns ls)) ls) n
      = roleOf r (mkPagerankSet ns) (mkConnectedSet r (mkPagerankSet ns) ls) n := by
    by_cases h1 : n.id ∈ r
    · simp [roleOf, h1]
    · by_cases h2 : n.id ∈ mkPagerankSet ns ∨
          n.recommendation_type = some "pagerank"
      · have h2' : n.id ∈ mkPagerankSet (classify r ns ls) ∨
            n.recommendation_type = some "pagerank" :=
          Or.inl (mem_pagerankSet_classify.mpr
            ⟨n, hn, rfl, Or.inl (by simp [roleOf, h1, h2])⟩)
        simp [roleOf, h1, h2, h2']
      · have h2' : ¬(n.id ∈ mkPagerankSet (classify r ns ls) ∨
            n.recommendation_type = some "pagerank") := by
          rintro (hmem | hrec)
          · exact h2 (Or.inl (((hA n.id).mp (Or.inr hmem)).resolve_left h1))
          · exact h2 (Or.inr hrec)
        by_cases h3 : some n.id ∈ mkConnectedSet r (mkPagerankSet ns) ls
        · have h3' := (hcc (some n.id)).mpr h3
          simp [roleOf, h1, h2, h2', h3, h3']
        · have h3' : some n.id ∉
              mkConnectedSet r (mkPagerankSet (classify r ns ls)) ls :=
            fun h => h3 ((hcc (some n.id)).mp h)
          simp [roleOf, h1, h2, h2', h3, h3']
  simp only [assignType, setTypeField_setTypeField, roleOf_setTypeField, key]

lemma roleOf_total (r p : List NodeId) (c : List (Option NodeId)) (n : NodeData) :
    roleOf r p c n = "recommended" ∨ roleOf r p c n = "pagerank" ∨
      roleOf r p c n = "connected" ∨ roleOf r p c n = "other" := by
  unfold roleOf
  split_ifs <;> simp

lemma classify_type_total (r : List NodeId) (ns : List NodeData) (ls : List Link) :
    ∀ n' ∈ classify r ns ls,
      n'.type = some "recommended" ∨ n'.type = some "pagerank" ∨
        n'.type = some "connected" ∨ n'.type = some "other" := by
  intro n' hn'
  rw [classify_eq_map] at hn'
  rcases List.mem_map.mp hn' with ⟨m, _hm, rfl⟩
  have := roleOf_total r (mkPagerankSet ns)
    (mkConnectedSet r (mkPagerankSet ns) ls) m
  simpa [assignType, setTypeField] using this

/-!  ## Claim theorems  -/

/-- C1 (code evaluated at the failing input): on Scenario A — nodes
`[{id: 1, recommendation_type: "pagerank"}, {id: 2}]`, one edge between 1
and 2 in `GraphData` shape, empty `recommendedIds` — the implemented
classification assigns `pagerank` to node 1 but `other` (not the claimed
`connected`) to node 2: with id-shaped links, `link.source.id` and
`link.target.id` are `undefined`, so `connectedSet` stays empty. -/
theorem scenarioA_node2_role_other :
    (classify [] scenarioANodes scenarioALinks).map (fun n => n.type)
      = [some "pagerank", some "other"] := by rfl

/-- C2: any node of the classifier output whose id is in `recommendedIds`
and that is also pagerank-tagged (member of the pagerank set, or
`recommendation_type` equal to `pagerank`) gets role `recommended` and
never `pagerank` — the `recommended` branch is tested first. -/
theorem recommended_precedence (r : List NodeId) (ns : List NodeData)
    (ls : List Link) (n' : NodeData) (h1 : n' ∈ classify r ns ls)
    (h2 : n'.id ∈ r)
    (h3 : n'.id ∈ mkPagerankSet ns ∨ n'.recommendation_type = some "pagerank") :
    n'.type = some "recommended" ∧ n'.type ≠ some "pagerank" := by
  rw [classify_eq_map] at h1
  rcases List.mem_map.mp h1 with ⟨m, _hm, rfl⟩
  have h2' : m.id ∈ r := h2
  have hrole : (assignType r (mkPagerankSet ns)
      (mkConnectedSet r (mkPagerankSet ns) ls) m).type = some "recommended" := by
    simp [assignType, setTypeField, roleOf, h2']
  exact ⟨hrole, by rw [hrole]; decide⟩

/-- Witness for C2: with `recommendedIds = [1]` on the Scenario A graph,
node 1 is in both the recommended and the pagerank-tagged set and is
classified `recommended`. -/
theorem recommended_precedence_witness :
    setTypeField scenarioANode1 (some "recommended")
        ∈ classify [1] scenarioANodes scenarioALinks ∧
      (setTypeField scenarioANode1 (some "recommended")).id ∈ [1] ∧
      ((setTypeField scenarioANode1 (some "recommended")).id
          ∈ mkPagerankSet scenarioANodes ∨
        (setTypeField scenarioANode1 (some "recommended")).recommendation_type
          = some "pagerank") ∧
      ((setTypeField scenarioANode1 (some "recommended")).type
          = some "recommended" ∧
        (setTypeField scenarioANode1 (some "recommended")).type
          ≠ some "pagerank") :=
  ⟨by decide, by decide, by decide,
    recommended_precedence [1] scenarioANodes scenarioALinks _
      (by decide) (by decide) (by decide)⟩

/-- C3: after one classification pass every node of the output carries a
role, and it is one of `recommended`, `pagerank`, `connected`, `other`
(the role is a single slot, so no node carries two roles). -/
theorem role_totality (r : List NodeId) (ns : List NodeData) (ls : List Link)
    (n' : NodeData) (h : n' ∈ classify r ns ls) :
    n'.type = some "recommended" ∨ n'.type = some "pagerank" ∨
      n'.type = some "connected" ∨ n'.type = some "other" :=
  classify_type_total r ns ls n' h

/-- Witness for C3: node 1 of the classified Scenario A graph carries one
of the four roles. -/
theorem role_totality_witness :
    setTypeField scenarioANode1 (some "pagerank")
        ∈ classify [] scenarioANodes scenarioALinks ∧
      ((setTypeField scenarioANode1 (some "pagerank")).type = some "recommended" ∨
        (setTypeField scenarioANode1 (some "pagerank")).type = some "pagerank" ∨
        (setTypeField scenarioANode1 (some "pagerank")).type = some "connected" ∨
        (setTypeField scenarioANode1 (some "pagerank")).type = some "other") :=
  ⟨by decide, role_totality [] scenarioANodes scenarioALinks _ (by decide)⟩

/-- C4: the classifier is idempotent — classifying the output of a
classification run, with the same edges and recommendedIds, reproduces
that output exactly. -/
theorem classify_idempotent (r : List NodeId) (ns : List NodeData)
    (ls : List Link) :
    classify r (classify r ns ls) ls = classify r ns ls := by
  calc classify r (classify r ns ls) ls
      = (ns.map (assignType r (mkPagerankSet ns)
            (mkConnectedSet r (mkPagerankSet ns) ls))).map
          (assignType r (mkPagerankSet (classify r ns ls))
            (mkConnectedSet r (mkPagerankSet (classify r ns ls)) ls)) := rfl
    _ = ns.map (assignType r (mkPagerankSet (classify r ns ls))
            (mkConnectedSet r (mkPagerankSet (classify r ns ls)) ls) ∘
          assignType r (mkPagerankSet ns)
            (mkConnectedSet r (mkPagerankSet ns) ls)) := List.map_map ..
    _ = ns.map (assignType r (mkPagerankSet ns)
          (mkConnectedSet r (mkPagerankSet ns) ls)) :=
        List.map_congr_left fun n hn => assignType_fixpoint r ns ls n hn
    _ = classify r ns ls := rfl

/-- Counterexample for C5: for a `recommended` node with value 1 the
rendered radius is 22 while the collision force radius is the constant
20, so the per-node rendered radius is not the radius used by the
collision-avoidance force. -/
theorem collision_radius_differs_from_rendered :
    collisionRadius bigRecommendedNode ≠ renderedRadius bigRecommendedNode := by
  norm_num [collisionRadius, renderedRadius, bigRecommendedNode]

/-- C5 (amended): the collision-avoidance force uses the constant radius
20 for every node; the value- and role-dependent rendered radius is not
fed back into it. -/
theorem collision_radius_constant (n : NodeData) : collisionRadius n = 20 := rfl

/-- Counterexample for C6: the second link of `danglingGraph` references
the unknown node id 99, yet it is contained unchanged in the link list
handed to the force simulation — the code never drops an edge. -/
theorem dangling_link_not_dropped :
    ¬ endpointResolves danglingGraph.nodes danglingLink.target ∧
      danglingLink ∈ forceLinkInput danglingGraph := by
  constructor
  · decide
  · decide

/-- C6 (amended): with edges referencing unknown node ids present,
classification still assigns one of the four roles to every node, but the
edges are not dropped: the full unfiltered link list is handed to the
force simulation. -/
theorem classify_total_links_unfiltered (r : List NodeId) (d : GraphData) :
    (∀ n' ∈ classify r d.nodes d.links,
      n'.type = some "recommended" ∨ n'.type = some "pagerank" ∨
        n'.type = some "connected" ∨ n'.type = some "other") ∧
      forceLinkInput d = d.links :=
  ⟨classify_type_total r d.nodes d.links, rfl⟩

/-- Witness for the amended C6: on `danglingGraph`, node 1 is classified
with one of the four roles and the link list reaches the simulation
unfiltered. -/
theorem classify_total_links_unfiltered_witness :
    setTypeField scenarioANode1 (some "pagerank")
        ∈ classify [] danglingGraph.nodes danglingGraph.links ∧
      ((setTypeField scenarioANode1 (some "pagerank")).type = some "recommended" ∨
        (setTypeField scenarioANode1 (some "pagerank")).type = some "pagerank" ∨
        (setTypeField scenarioANode1 (some "pagerank")).type = some "connected" ∨
        (setTypeField scenarioANode1 (some "pagerank")).type = some "other") ∧
      forceLinkInput danglingGraph = danglingGraph.links :=
  ⟨by decide,
    (classify_total_links_unfiltered [] danglingGraph).1 _ (by decide),
    (classify_total_links_unfiltered [] danglingGraph).2⟩

/-- C7: classification is a pure per-node role tag — the link list
(similarity scores included) is returned unchanged, and every node field
other than the `type` slot is preserved. -/
theorem classification_frame (r : List NodeId) (d : GraphData) :
    (classifyGraph r d).links = d.links ∧
      (classifyGraph r d).nodes.map stripType = d.nodes.map stripType := by
  refine ⟨rfl, ?_⟩
  show (classify r d.nodes d.links).map stripType = d.nodes.map stripType
  rw [classify_eq_map, List.map_map]
  apply List.map_congr_left
  intro n _
  rfl

/-- C8: the rendered radius is `max 8 (value * 20)` times 1.1 for roles
`recommended` and `pagerank`, times 1.05 for `connected`, and times 1 for
`other`; in every case it is at least 8. -/
theorem rendered_radius_spec (n : NodeData) :
    8 ≤ renderedRadius n ∧
      (n.type = some "recommended" →
        renderedRadius n = max 8 (n.value * 20) * 1.1) ∧
      (n.type = some "pagerank" →
        renderedRadius n = max 8 (n.value * 20) * 1.1) ∧
      (n.type = some "connected" →
        renderedRadius n = max 8 (n.value * 20) * 1.05) ∧
      (n.type = some "other" → renderedRadius n = max 8 (n.value * 20)) := by
  have hb : (8 : Rat) ≤ max 8 (n.value * 20) := le_max_left _ _
  refine ⟨?_, ?_, ?_, ?_, ?_⟩
  · unfold renderedRadius
    split_ifs <;> linarith
  · intro h; simp [renderedRadius, h]
  · intro h; simp [renderedRadius, h]
  · intro h; simp [renderedRadius, h]
  · intro h; simp [renderedRadius, h]

/-- Witness for C8: the `recommended` node with value 1 has rendered
radius 22, which is at least 8. -/
theorem rendered_radius_spec_witness :
    8 ≤ renderedRadius bigRecommendedNode ∧
      renderedRadius bigRecommendedNode = 22 := by
  have h := rendered_radius_spec bigRecommendedNode
  refine ⟨h.1, ?_⟩
  have h2 := h.2.1 (show bigRecommendedNode.type = some "recommended" from rfl)
  rw [h2]
  norm_num [bigRecommendedNode]

/-- C9: the zoom transform scale, clamped to the configured scale extent
of [0.1, 4], always lies within [0.1, 4]; in particular a requested scale
of 10 is rendered as 4. -/
theorem zoom_scale_clamped :
    (∀ k : Rat, scaleExtent.1 ≤ clampScale scaleExtent k ∧
      clampScale scaleExtent k ≤ scaleExtent.2) ∧
      clampScale scaleExtent 10 = 4 := by
  constructor
  · intro k
    refine ⟨le_max_left _ _, max_le (by norm_num [scaleExtent]) ?_⟩
    exact min_le_left _ _
  · norm_num [clampScale, scaleExtent]

/-- C10: on freshly fetched nodes, which carry no `type` property, the
implemented pagerank membership test (`n.type === "pagerank" ||
n.recommendation_type === "pagerank"`) computes exactly the set of ids of
nodes whose `recommendation_type` equals `pagerank`. -/
theorem pagerank_test_refines (nodes : List NodeData)
    (h : ∀ n ∈ nodes, n.type = none) :
    mkPagerankSet nodes = pagerankSetOfRecommendationType nodes := by
  unfold mkPagerankSet pagerankSetOfRecommendationType
  congr 1
  apply List.filter_congr
  intro n hn
  rw [decide_eq_decide]
  simp [h n hn]

/-- Witness for C10: the Scenario A nodes are freshly fetched (no `type`
property), and both membership tests produce the same pagerank set. -/
theorem pagerank_test_refines_witness :
    (∀ n ∈ scenarioANodes, n.type = none) ∧
      mkPagerankSet scenarioANodes
        = pagerankSetOfRecommendationType scenarioANodes :=
  ⟨by decide, pagerank_test_refines scenarioANodes (by decide)⟩

end KG
